import Mathlib

/-!
Shallow embedding of `src/main.py` (Feynman Learning Assistant backend).

The program is a FastAPI app with four substantive handlers
(`create_assistant`, `send_message`, `get_user_conversations`,
`delete_conversation`) over a module-level dict `active_conversations`
mapping conversation ids to `{assistant_id, topic, user_id}` records, plus a
health check.  Calls to the external `vapi` platform are modelled as
`Except String _` parameters (the platform either returns a value or raises
an exception carrying a message); the handlers additionally report the list
of upstream calls they actually performed, so that frame properties
("no message is sent upstream") can be stated.

A crucial behavioural detail of the source is preserved: each handler body
is wrapped in `try: ... except Exception as e: raise HTTPException(500, ...)`.
In Python, `fastapi.HTTPException` is itself a subclass of `Exception`, so
the `raise HTTPException(400/404/403, ...)` statements inside the `try`
blocks of `send_message` and `delete_conversation` are caught by the
catch-all and re-raised as status 500 with the stringified original
exception (`str(e)` of an `HTTPException` is `"<status>: <detail>"`)
embedded in the new detail.  The embedding models the inner `try` body as an
`Except Exc _` computation and the handler as the catch-all wrapper.
-/

namespace Feynman

/-- One record of the `active_conversations` dict:
`{"assistant_id": ..., "topic": ..., "user_id": ...}` (main.py lines 70-74). -/
structure Session where
  assistant_id : String
  topic : String
  user_id : String
deriving DecidableEq

/-- The `active_conversations` dict, as an association list keyed by
conversation id (main.py line 40). -/
abbrev Registry := List (String × Session)

/-- Dict lookup `active_conversations[cid]` / membership test. -/
def findConv : Registry → String → Option Session
  | [], _ => none
  | (k, s) :: rest, cid => if k = cid then some s else findConv rest cid

/-- Dict assignment `active_conversations[cid] = sess`: overwrite the
binding if the key is present, otherwise append it. -/
def insertConv : Registry → String → Session → Registry
  | [], cid, sess => [(cid, sess)]
  | (k, s) :: rest, cid, sess =>
      if k = cid then (cid, sess) :: rest else (k, s) :: insertConv rest cid sess

/-- Dict deletion `del active_conversations[cid]`. -/
def eraseConv : Registry → String → Registry
  | [], _ => []
  | (k, s) :: rest, cid => if k = cid then rest else (k, s) :: eraseConv rest cid

/-- A Python exception as observed by the catch-all handler: either a
`fastapi.HTTPException` (with status and detail) raised by the handler body
itself, or a generic exception from the `vapi` client. -/
inductive Exc where
  | httpExc (status : Nat) (detail : String)
  | genericExc (msg : String)
deriving DecidableEq

/-- `str(e)` for the two exception shapes: Starlette's `HTTPException`
stringifies as `"<status_code>: <detail>"`. -/
def excStr : Exc → String
  | .httpExc st d => toString st ++ ": " ++ d
  | .genericExc m => m

/-- An HTTP response: a success body, or an error status with a detail
message (FastAPI renders the latter as `{detail: message}`). -/
inductive Resp (α : Type) where
  | ok (body : α)
  | httpError (status : Nat) (detail : String)
deriving DecidableEq

/-- Whether a response is an error response. -/
def Resp.isHttpError {α : Type} : Resp α → Bool
  | .httpError _ _ => true
  | .ok _ => false

/-- The upstream (`vapi`) calls a handler can perform, with the arguments
the source passes. -/
inductive UpCall where
  | assistantCreate (nm instr : String)
  | conversationCreate (assistant_id user_id topic : String)
  | userMessageCreate (conversation_id content : String)
  | assistantMessageCreate (conversation_id : String)
  | conversationDelete (conversation_id : String)
deriving DecidableEq

/-- The `NewSession` pydantic model (main.py lines 34-37):
`topic: str`, `difficulty_level: str = "beginner"`, `user_id: str`. -/
structure NewSession where
  topic : String
  difficulty_level : String
  user_id : String
deriving DecidableEq

/-- A raw JSON body for `POST /create_assistant`: each field either absent
or a string. -/
structure NewSessionBody where
  topic : Option String
  difficulty_level : Option String
  user_id : Option String
deriving DecidableEq

/-- Pydantic validation of `NewSession`: `topic` and `user_id` are required
(a missing field is a validation error), `difficulty_level` defaults to
`"beginner"`.  Pydantic's plain `str` type accepts the empty string. -/
def parseNewSession (b : NewSessionBody) : Option NewSession :=
  match b.topic, b.user_id with
  | some t, some u => some ⟨t, b.difficulty_level.getD "beginner", u⟩
  | _, _ => none

/-- The `ConversationInput` pydantic model (main.py lines 28-31):
`message: str`, `conversation_id: Optional[str] = None`, `user_id: str`. -/
structure ConversationInput where
  message : String
  conversation_id : Option String
  user_id : String
deriving DecidableEq

/-- `name=f"Feynman Learning Assistant - {session.topic}"` (main.py line 48). -/
def assistantName (topic : String) : String :=
  "Feynman Learning Assistant - " ++ topic

/-- The f-string instruction template submitted to
`vapi.Assistant.create` (main.py lines 50-60), parameterised by
`session.topic` and `session.difficulty_level`. -/
def assistantInstructions (topic difficulty_level : String) : String :=
  "\n                You are a Feynman Learning Assistant teaching about " ++ topic ++
  " at a " ++ difficulty_level ++ " level.\n" ++
  "                Your goal is to guide the user through the Feynman technique:\n" ++
  "                1. Have them explain what they know about the topic\n" ++
  "                2. Identify gaps in their understanding\n" ++
  "                3. Help them simplify complex concepts\n" ++
  "                4. Guide them to teach the concept back to you\n" ++
  "                5. Provide feedback on their explanations\n" ++
  "                \n" ++
  "                Always use simple language and encourage the user to explain concepts in their own words.\n            "

/-- Success body of `POST /create_assistant` (main.py lines 76-80). -/
structure CreateBody where
  conversation_id : String
  assistant_id : String
  topic : String
deriving DecidableEq

/-- Success body of `POST /send_message` (main.py lines 112-116). -/
structure SendBody where
  response : String
  message_id : String
  conversation_id : String
deriving DecidableEq

/-- Success body of `DELETE /conversation/{conversation_id}` (main.py line 154). -/
structure DeleteBody where
  status : String
  message : String
deriving DecidableEq

/-- Result of the `create_assistant` handler: the HTTP response, the
registry after the request, and the upstream calls performed. -/
structure CreateOut where
  resp : Resp CreateBody
  registry : Registry
  calls : List UpCall
deriving DecidableEq

/-- The `create_assistant` handler (main.py lines 42-83).
`assistantRes` is the outcome of `vapi.Assistant.create` (the returned
`assistant.id`, or the message of the exception it raised), and
`conversationRes` the outcome of `vapi.Conversation.create`.  The registry
is only written after both upstream calls succeed; any exception reaches the
catch-all, which raises status 500 with prefix `"Failed to create assistant: "`. -/
def create_assistant (r : Registry) (s : NewSession)
    (assistantRes : Except String String)
    (conversationRes : Except String String) : CreateOut :=
  let aCall := UpCall.assistantCreate (assistantName s.topic)
      (assistantInstructions s.topic s.difficulty_level)
  match assistantRes with
  | .error e => ⟨.httpError 500 ("Failed to create assistant: " ++ e), r, [aCall]⟩
  | .ok aid =>
    match conversationRes with
    | .error e =>
        ⟨.httpError 500 ("Failed to create assistant: " ++ e), r,
          [aCall, .conversationCreate aid s.user_id s.topic]⟩
    | .ok cid =>
        ⟨.ok ⟨cid, aid, s.topic⟩,
          insertConv r cid ⟨aid, s.topic, s.user_id⟩,
          [aCall, .conversationCreate aid s.user_id s.topic]⟩

/-- Result of the `send_message` handler: the HTTP response and the
upstream calls performed (the handler never writes the registry). -/
structure SendOut where
  resp : Resp SendBody
  calls : List UpCall
deriving DecidableEq

/-- The `try:` body of `send_message` (main.py lines 88-116): the Python
truthiness test `if not conversation_input.conversation_id` fires on both
`None` and the empty string; then membership and ownership are checked
against `active_conversations`; only then are the two `vapi.Message.create`
calls made.  `postRes` is the outcome of the user-role message creation and
`fetchRes` the `(content, id)` of the assistant-role one. -/
def sendMessageTry (r : Registry) (ci : ConversationInput)
    (postRes : Except String Unit)
    (fetchRes : Except String (String × String)) :
    Except Exc SendBody × List UpCall :=
  match ci.conversation_id with
  | none => (.error (.httpExc 400 "Conversation ID is required"), [])
  | some cid =>
    if cid = "" then (.error (.httpExc 400 "Conversation ID is required"), [])
    else
      match findConv r cid with
      | none => (.error (.httpExc 404 "Conversation not found"), [])
      | some sess =>
        if sess.user_id ≠ ci.user_id then
          (.error (.httpExc 403 "Unauthorized access to conversation"), [])
        else
          match postRes with
          | .error e => (.error (.genericExc e), [.userMessageCreate cid ci.message])
          | .ok _ =>
            match fetchRes with
            | .error e =>
                (.error (.genericExc e),
                  [.userMessageCreate cid ci.message, .assistantMessageCreate cid])
            | .ok (content, mid) =>
                (.ok ⟨content, mid, cid⟩,
                  [.userMessageCreate cid ci.message, .assistantMessageCreate cid])

/-- The `send_message` handler (main.py lines 85-119): the catch-all
`except Exception` converts EVERY exception of the body — including the
handler's own `HTTPException(400/404/403)` raises — into status 500 with
detail `"Failed to process message: " + str(e)`. -/
def send_message (r : Registry) (ci : ConversationInput)
    (postRes : Except String Unit)
    (fetchRes : Except String (String × String)) : SendOut :=
  match sendMessageTry r ci postRes fetchRes with
  | (.ok b, cs) => ⟨.ok b, cs⟩
  | (.error e, cs) => ⟨.httpError 500 ("Failed to process message: " ++ excStr e), cs⟩

/-- The dict comprehension of `get_user_conversations` (main.py lines
126-129): the entries of `active_conversations` whose `user_id` equals the
path parameter. -/
def userConversations (r : Registry) (uid : String) : Registry :=
  r.filter (fun p => p.2.user_id == uid)

/-- The `get_user_conversations` handler (main.py lines 121-133): always
succeeds, returning the filtered mapping. -/
def get_user_conversations (r : Registry) (uid : String) : Resp Registry :=
  .ok (userConversations r uid)

/-- Result of the `delete_conversation` handler. -/
structure DeleteOut where
  resp : Resp DeleteBody
  registry : Registry
  calls : List UpCall
deriving DecidableEq

/-- The `try:` body of `delete_conversation` (main.py lines 138-154).
`body_user_id` is `data.get("user_id")`: `none` when the JSON body has no
`user_id` key.  The ownership test is Python's
`active_conversations[conversation_id]["user_id"] != user_id`; the stored
`user_id` is always a `str`, so against `None` the test is always true and
the 403 branch is taken.  `vapi.Conversation.delete` runs before the local
`del`, so an upstream failure (modelled by `deleteRes = .error _`) leaves
the registry untouched. -/
def deleteConversationTry (r : Registry) (conversation_id : String)
    (body_user_id : Option String)
    (deleteRes : Except String Unit) :
    Except Exc DeleteBody × Registry × List UpCall :=
  match findConv r conversation_id with
  | none => (.error (.httpExc 404 "Conversation not found"), r, [])
  | some sess =>
    if (match body_user_id with
        | none => true
        | some u => sess.user_id != u) then
      (.error (.httpExc 403 "Unauthorized access to conversation"), r, [])
    else
      match deleteRes with
      | .error e => (.error (.genericExc e), r, [.conversationDelete conversation_id])
      | .ok _ =>
          (.ok ⟨"success", "Conversation deleted"⟩,
            eraseConv r conversation_id, [.conversationDelete conversation_id])

/-- The `delete_conversation` handler (main.py lines 135-157): as in
`send_message`, the catch-all converts every exception — the 404 and 403
`HTTPException`s included — into status 500 with detail
`"Failed to delete conversation: " + str(e)`. -/
def delete_conversation (r : Registry) (conversation_id : String)
    (body_user_id : Option String)
    (deleteRes : Except String Unit) : DeleteOut :=
  match deleteConversationTry r conversation_id body_user_id deleteRes with
  | (.ok b, r2, cs) => ⟨.ok b, r2, cs⟩
  | (.error e, r2, cs) =>
      ⟨.httpError 500 ("Failed to delete conversation: " ++ excStr e), r2, cs⟩

/-- The `health_check` handler (main.py lines 159-162). -/
def health_check : Resp String := .ok "healthy"

/-! ### Registry lemmas -/

@[simp]
theorem findConv_nil (cid : String) : findConv [] cid = none := rfl

@[simp]
theorem findConv_cons (k : String) (s : Session) (rest : Registry) (cid : String) :
    findConv ((k, s) :: rest) cid = if k = cid then some s else findConv rest cid := rfl

theorem findConv_append_of_none (r1 r2 : Registry) (cid : String)
    (h : findConv r1 cid = none) : findConv (r1 ++ r2) cid = findConv r2 cid := by
  induction r1 with
  | nil => simp
  | cons q rest ih =>
    obtain ⟨k, s⟩ := q
    by_cases hk : k = cid
    · simp [hk] at h
    · simp only [findConv_cons, if_neg hk] at h
      simpa [findConv, hk] using ih h

theorem findConv_filter_none (p : String × Session → Bool) (r : Registry) (cid : String)
    (h : findConv r cid = none) : findConv (r.filter p) cid = none := by
  induction r with
  | nil => simp
  | cons q rest ih =>
    obtain ⟨k, s⟩ := q
    by_cases hk : k = cid
    · simp [hk] at h
    · simp only [findConv_cons, if_neg hk] at h
      rcases hp : p (k, s) with _ | _
      · simpa [List.filter_cons, hp] using ih h
      · simpa [List.filter_cons, hp, findConv, hk] using ih h

theorem insertConv_eq_append (r : Registry) (cid : String) (s : Session)
    (h : findConv r cid = none) : insertConv r cid s = r ++ [(cid, s)] := by
  induction r with
  | nil => rfl
  | cons q rest ih =>
    obtain ⟨k, v⟩ := q
    by_cases hk : k = cid
    · simp [hk] at h
    · simp only [findConv_cons, if_neg hk] at h
      simp [insertConv, hk, ih h]

theorem mem_insertConv (r : Registry) (cid : String) (s : Session)
    (q : String × Session) (h : q ∈ insertConv r cid s) : q ∈ r ∨ q = (cid, s) := by
  induction r with
  | nil =>
    simp only [insertConv, List.mem_singleton] at h
    exact Or.inr h
  | cons p0 rest ih =>
    obtain ⟨k, v⟩ := p0
    by_cases hk : k = cid
    · simp only [insertConv, if_pos hk, List.mem_cons] at h
      rcases h with h | h
      · exact Or.inr h
      · exact Or.inl (List.mem_cons_of_mem _ h)
    · simp only [insertConv, if_neg hk, List.mem_cons] at h
      rcases h with h | h
      · exact Or.inl (by simp [h])
      · rcases ih h with h2 | h2
        · exact Or.inl (List.mem_cons_of_mem _ h2)
        · exact Or.inr h2

theorem mem_eraseConv (r : Registry) (cid : String)
    (q : String × Session) (h : q ∈ eraseConv r cid) : q ∈ r := by
  induction r with
  | nil => simp [eraseConv] at h
  | cons p0 rest ih =>
    obtain ⟨k, v⟩ := p0
    by_cases hk : k = cid
    · simp only [eraseConv, if_pos hk] at h
      exact List.mem_cons_of_mem _ h
    · simp only [eraseConv, if_neg hk, List.mem_cons] at h
      rcases h with h | h
      · simp [h]
      · exact List.mem_cons_of_mem _ (ih h)

/-! ### Claim theorems -/

/-- C1: the claim says a Send Message request with a never-created
conversation id fails with HTTP 404, and one with an existing id owned by a
different user fails with HTTP 403.  In the code both deliberate
`HTTPException(404/403)` raises are swallowed by the handler's catch-all
`except Exception` and re-raised as HTTP 500, so the client observes 500 in
both cases.  This theorem evaluates the handler at both failing inputs. -/
theorem send_message_notFound_and_unauthorized_become_500 :
    (send_message [("c1", ⟨"a1", "math", "u1"⟩)] ⟨"hi", some "c2", "u1"⟩
        (.ok ()) (.ok ("r", "m1"))).resp
      = .httpError 500 "Failed to process message: 404: Conversation not found" ∧
    (send_message [("c1", ⟨"a1", "math", "u1"⟩)] ⟨"hi", some "c1", "u2"⟩
        (.ok ()) (.ok ("r", "m1"))).resp
      = .httpError 500 "Failed to process message: 403: Unauthorized access to conversation" := by
  decide

/-- C3: in Delete Session, a failing upstream `vapi.Conversation.delete`
(modelled by `deleteRes = .error msg`) makes the handler return an error
response and leaves the registry exactly as it was — the local `del` runs
only after the upstream call returns. -/
theorem delete_registry_unchanged_on_upstream_failure
    (r : Registry) (cid : String) (u : Option String) (msg : String) :
    (delete_conversation r cid u (.error msg)).registry = r ∧
    (delete_conversation r cid u (.error msg)).resp.isHttpError = true := by
  cases h : findConv r cid with
  | none => simp [delete_conversation, deleteConversationTry, h, Resp.isHttpError]
  | some sess =>
    cases hc : (match u with | none => true | some x => sess.user_id != x) with
    | true => simp [delete_conversation, deleteConversationTry, h, hc, Resp.isHttpError]
    | false => simp [delete_conversation, deleteConversationTry, h, hc, Resp.isHttpError]

/-- C4: Create Session is all-or-nothing.  If `vapi.Assistant.create`
fails, or `vapi.Conversation.create` fails after a successful
`vapi.Assistant.create`, the handler returns an error and the registry is
unchanged — the dict write happens only after both upstream calls succeed. -/
theorem create_no_partial_registry_on_failure
    (r : Registry) (s : NewSession) (e : String)
    (cRes : Except String String) (aid : String) :
    (create_assistant r s (.error e) cRes).registry = r ∧
    (create_assistant r s (.error e) cRes).resp.isHttpError = true ∧
    (create_assistant r s (.ok aid) (.error e)).registry = r ∧
    (create_assistant r s (.ok aid) (.error e)).resp.isHttpError = true :=
  ⟨rfl, rfl, rfl, rfl⟩

/-- C5: the claim says deleting a nonexistent id returns HTTP 404 (never a
silent success), and a repeat delete after a successful one returns 404.
The code does fail (no silent success), the id is removed and absent from
subsequent listings, but the `HTTPException(404)` is swallowed by the
catch-all and the client observes HTTP 500, not 404, for both the
nonexistent-id delete and the repeat delete.  This theorem evaluates the
full scenario. -/
theorem delete_nonexistent_and_repeat_become_500 :
    (delete_conversation [] "c9" (some "u1") (.ok ())).resp
      = .httpError 500 "Failed to delete conversation: 404: Conversation not found" ∧
    (delete_conversation [("c1", ⟨"a1", "math", "u1"⟩)] "c1" (some "u1") (.ok ())).resp
      = .ok ⟨"success", "Conversation deleted"⟩ ∧
    (delete_conversation [("c1", ⟨"a1", "math", "u1"⟩)] "c1" (some "u1") (.ok ())).registry
      = [] ∧
    userConversations
        ((delete_conversation [("c1", ⟨"a1", "math", "u1"⟩)] "c1" (some "u1") (.ok ())).registry)
        "u1" = [] ∧
    (delete_conversation
        ((delete_conversation [("c1", ⟨"a1", "math", "u1"⟩)] "c1" (some "u1") (.ok ())).registry)
        "c1" (some "u1") (.ok ())).resp
      = .httpError 500 "Failed to delete conversation: 404: Conversation not found" := by
  decide

/-- C6: the claim says a Send Message request without a `conversation_id`
fails with HTTP 400.  The code raises `HTTPException(400)`, but the
catch-all `except Exception` swallows it and re-raises HTTP 500, so the
client observes 500.  This theorem evaluates the handler at the failing
input. -/
theorem send_message_missing_id_becomes_500 :
    (send_message [] ⟨"hi", none, "u1"⟩ (.ok ()) (.ok ("r", "m1"))).resp
      = .httpError 500 "Failed to process message: 400: Conversation ID is required" := by
  decide

/-- C9: a Delete Session request whose JSON body lacks the `user_id` key
(`data.get("user_id")` yields `None`) never removes the registry entry and
never calls the upstream delete: the stored owner is always a `str`, so the
Python test `stored != None` is true and the 403 branch is taken before any
upstream call; the handler fails and the registry is unchanged. -/
theorem delete_missing_user_id_no_removal_no_upstream
    (r : Registry) (cid : String) (d : Except String Unit) :
    (delete_conversation r cid none d).registry = r ∧
    (delete_conversation r cid none d).calls = [] ∧
    (delete_conversation r cid none d).resp.isHttpError = true := by
  cases h : findConv r cid with
  | none => simp [delete_conversation, deleteConversationTry, h, Resp.isHttpError]
  | some sess => simp [delete_conversation, deleteConversationTry, h, Resp.isHttpError]

/-- C10: a Create Session request that omits `difficulty_level` parses to a
`NewSession` with `difficulty_level = "beginner"` (the pydantic default),
and the assistant-instruction payload submitted to the gateway — the first
upstream call of the handler — is built with difficulty level
`"beginner"`. -/
theorem omitted_difficulty_defaults_to_beginner
    (topic uid : String) (r : Registry) (aRes cRes : Except String String) :
    parseNewSession ⟨some topic, none, some uid⟩ = some ⟨topic, "beginner", uid⟩ ∧
    (create_assistant r ⟨topic, "beginner", uid⟩ aRes cRes).calls.head?
      = some (.assistantCreate (assistantName topic)
          (assistantInstructions topic "beginner")) := by
  refine ⟨rfl, ?_⟩
  cases aRes with
  | error e => rfl
  | ok aid =>
    cases cRes with
    | error e => rfl
    | ok cid => rfl

/-- C7: a Send Message request that fails the authorization checks — the
conversation id is absent from the registry, or present with an owner
different from the request's `user_id` — performs no upstream call at all:
both `vapi.Message.create` calls come after the membership and ownership
checks, whose raises abort the body. -/
theorem send_no_upstream_call_on_auth_failure
    (r : Registry) (ci : ConversationInput)
    (postRes : Except String Unit) (fetchRes : Except String (String × String))
    (cid : String) (hcid : ci.conversation_id = some cid) (hne : cid ≠ "")
    (hauth : findConv r cid = none ∨
      ∃ s, findConv r cid = some s ∧ s.user_id ≠ ci.user_id) :
    (send_message r ci postRes fetchRes).calls = [] := by
  rcases hauth with h | ⟨s, hs, hu⟩
  · simp [send_message, sendMessageTry, hcid, hne, h]
  · simp [send_message, sendMessageTry, hcid, hne, hs, hu]

/-- Witness for C7: in a registry holding only `c1` (owned by `u1`), a
request for the never-created `c2` by `u2` makes no upstream call. -/
theorem send_no_upstream_call_on_auth_failure_witness :
    (send_message [("c1", ⟨"a1", "math", "u1"⟩)] ⟨"hi", some "c2", "u2"⟩
        (.ok ()) (.ok ("r", "m1"))).calls = [] :=
  send_no_upstream_call_on_auth_failure _ _ _ _ "c2" rfl (by decide)
    (Or.inl (by decide))

/-- C8: after a successful Create Session over a registry that did not
already hold the new (gateway-assigned) conversation id, that id maps in
the owner's List Conversations result to the stored record, and for every
user different from the owner it is absent from that user's result. -/
theorem created_session_visible_only_to_owner
    (r : Registry) (s : NewSession) (aid cid u : String)
    (hfresh : findConv r cid = none) :
    findConv (userConversations
        (create_assistant r s (.ok aid) (.ok cid)).registry s.user_id) cid
      = some ⟨aid, s.topic, s.user_id⟩ ∧
    (u ≠ s.user_id →
      findConv (userConversations
          (create_assistant r s (.ok aid) (.ok cid)).registry u) cid = none) := by
  have hreg : (create_assistant r s (.ok aid) (.ok cid)).registry
      = r ++ [(cid, ⟨aid, s.topic, s.user_id⟩)] := by
    simpa [create_assistant] using insertConv_eq_append r cid ⟨aid, s.topic, s.user_id⟩ hfresh
  constructor
  · rw [hreg]
    unfold userConversations
    rw [List.filter_append,
      findConv_append_of_none _ _ _ (findConv_filter_none _ _ _ hfresh)]
    simp [List.filter_cons]
  · intro hu
    rw [hreg]
    unfold userConversations
    rw [List.filter_append,
      findConv_append_of_none _ _ _ (findConv_filter_none _ _ _ hfresh)]
    simp [List.filter_cons, beq_eq_false_iff_ne, Ne.symm hu]

/-- Witness for C8: creating a session for `u1` in the empty registry makes
`c1` visible to `u1` and not to `u2`. -/
theorem created_session_visible_only_to_owner_witness :
    findConv (userConversations
        (create_assistant [] ⟨"math", "beginner", "u1"⟩ (.ok "a1") (.ok "c1")).registry
        "u1") "c1" = some ⟨"a1", "math", "u1"⟩ ∧
    findConv (userConversations
        (create_assistant [] ⟨"math", "beginner", "u1"⟩ (.ok "a1") (.ok "c1")).registry
        "u2") "c1" = none := by
  have h := created_session_visible_only_to_owner [] ⟨"math", "beginner", "u1"⟩
    "a1" "c1" "u2" rfl
  exact ⟨h.1, h.2 (by decide)⟩

/-- The invariant C2 asserts of registry records: non-empty owner
`user_id` and non-empty `assistant_id`. -/
def GoodRegistry (r : Registry) : Prop :=
  ∀ q ∈ r, q.2.user_id ≠ "" ∧ q.2.assistant_id ≠ ""

/-- Counterexample to C2: `NewSession` uses pydantic's plain `str` fields,
which accept the empty string, so a request with empty `topic` and empty
`user_id` passes validation, the handler succeeds, and the registry then
holds a record whose owner `user_id` is empty — both the rejection claim
and the non-emptiness invariant fail. -/
theorem create_accepts_empty_topic_and_user :
    parseNewSession ⟨some "", some "beginner", some ""⟩ = some ⟨"", "beginner", ""⟩ ∧
    (create_assistant [] ⟨"", "beginner", ""⟩ (.ok "a1") (.ok "c1")).resp
      = .ok ⟨"c1", "a1", ""⟩ ∧
    findConv (create_assistant [] ⟨"", "beginner", ""⟩ (.ok "a1") (.ok "c1")).registry "c1"
      = some ⟨"a1", "", ""⟩ := by
  decide

/-- C2 (amended): Create Session rejects input whose `topic` or `user_id`
field is MISSING (pydantic required-field validation) but accepts empty
strings; the non-emptiness invariant therefore holds only conditionally:
when the creating request's `user_id` is non-empty and the gateway-assigned
assistant id is non-empty, Create Session preserves it, and Delete Session
(which only ever removes records) preserves it unconditionally. -/
theorem create_requires_fields_and_conditional_invariant
    (b : NewSessionBody) (r : Registry) (s : NewSession)
    (aRes cRes : Except String String) (cid2 : String) (u : Option String)
    (d : Except String Unit)
    (hb : b.topic = none ∨ b.user_id = none)
    (hr : GoodRegistry r) (hu : s.user_id ≠ "")
    (ha : ∀ aid, aRes = .ok aid → aid ≠ "") :
    parseNewSession b = none ∧
    GoodRegistry (create_assistant r s aRes cRes).registry ∧
    GoodRegistry (delete_conversation r cid2 u d).registry := by
  refine ⟨?_, ?_, ?_⟩
  · obtain ⟨bt, bd, bu⟩ := b
    rcases hb with h | h
    · simp only at h
      subst h
      rfl
    · simp only at h
      subst h
      cases bt <;> rfl
  · cases aRes with
    | error e => exact hr
    | ok aid =>
      cases cRes with
      | error e => exact hr
      | ok cid =>
        intro q hq
        rcases mem_insertConv r cid ⟨aid, s.topic, s.user_id⟩ q hq with h | h
        · exact hr q h
        · subst h
          exact ⟨hu, ha aid rfl⟩
  · have hcase : (delete_conversation r cid2 u d).registry = r ∨
        (delete_conversation r cid2 u d).registry = eraseConv r cid2 := by
      cases h : findConv r cid2 with
      | none => left; simp [delete_conversation, deleteConversationTry, h]
      | some sess =>
        cases hc : (match u with | none => true | some x => sess.user_id != x) with
        | true => left; simp [delete_conversation, deleteConversationTry, h, hc]
        | false =>
          cases d with
          | error e => left; simp [delete_conversation, deleteConversationTry, h, hc]
          | ok _ => right; simp [delete_conversation, deleteConversationTry, h, hc]
    rcases hcase with h | h <;> rw [h]
    · exact hr
    · intro q hq
      exact hr q (mem_eraseConv r cid2 q hq)

/-- Witness for amended C2: a body missing `topic` is rejected, and both a
successful create with non-empty ids and a delete preserve the invariant
on the empty registry. -/
theorem create_requires_fields_and_conditional_invariant_witness :
    parseNewSession ⟨none, none, some "u1"⟩ = none ∧
    GoodRegistry (create_assistant [] ⟨"math", "beginner", "u1"⟩ (.ok "a1") (.ok "c1")).registry ∧
    GoodRegistry (delete_conversation [] "c1" (some "u1") (.ok ())).registry :=
  create_requires_fields_and_conditional_invariant ⟨none, none, some "u1"⟩ []
    ⟨"math", "beginner", "u1"⟩ (.ok "a1") (.ok "c1") "c1" (some "u1") (.ok ())
    (Or.inl rfl) (fun q hq => absurd hq (List.not_mem_nil q)) (by decide)
    (fun aid h => by cases h; decide)

end Feynman
